import Mathlib

/-!
Verification of the COREP template validation core
(`backend/app/services/validation_service.py` and
`backend/app/services/template_service.py`).

The embedding models Python values that can appear in a template field as
either a numeric value (modelled as a rational, standing for Python
ints/floats and numeric strings after `float(...)` coercion) or a
non-null value that is not coercible to a number.  Python `None` is
modelled as `Option.none` one level up.  Dictionaries built by
comprehensions are modelled as last-wins lookups over the source list,
matching Python dict-comprehension semantics.  String formatting of
numbers inside messages (`:.2f`, `:.0%`) is abstracted by `toString` on
rationals; no property below depends on the numeric rendering.
-/

namespace Corep

/-- A non-null Python value as seen by the validators: either coercible to
a number by `float(...)` or not. -/
inductive Value where
  | num (q : ℚ)
  | nonNum
deriving DecidableEq

/-- Mirror of `app.models.TemplateField` (pydantic model). -/
structure TemplateField where
  field_id : String
  field_name : String
  value : Option Value
  justification : String
  regulatory_references : List String
  confidence_score : ℚ
deriving DecidableEq

/-- Mirror of `app.models.ValidationIssue`. -/
structure ValidationIssue where
  severity : String
  field_id : Option String
  message : String
  rule : String
deriving DecidableEq

/-- One field definition dictionary of a template schema
(`template_service.py` schema literals). -/
structure FieldDef where
  field_id : String
  field_name : String
  data_type : String
  required : Bool
  validation_rules : List String
  formula : Option String
deriving DecidableEq

/-- One section dictionary of a template schema. -/
structure TemplateSection where
  section_id : String
  section_name : String
  fields : List FieldDef
deriving DecidableEq

/-- A template schema dictionary (`template_name`, `description`,
`sections`). -/
structure TemplateSchema where
  template_name : String
  description : String
  sections : List TemplateSection
deriving DecidableEq

/-- The empty dictionary `{}` returned by `get_template_schema` for an
unknown template type: `.get("sections", [])` yields the empty list. -/
def empty_schema : TemplateSchema :=
  { template_name := "", description := "", sections := [] }

/-- `TemplateType.OWN_FUNDS_CR1` (a `str` enum value). -/
def own_funds_cr1 : String := "own_funds_cr1"

/-- `TemplateType.CAPITAL_REQUIREMENTS_CR2` (a `str` enum value). -/
def capital_requirements_cr2 : String := "capital_requirements_cr2"

/-- `ValidationService._validate_positive`: `None` is false; otherwise
true iff the value is coercible to a number and `> 0`. -/
def validate_positive : Option Value → Bool
  | none => false
  | some (Value.num q) => decide (q > 0)
  | some Value.nonNum => false

/-- `ValidationService._validate_negative_or_zero`: `None` is true;
otherwise true iff the value is coercible to a number and `<= 0`. -/
def validate_negative_or_zero : Option Value → Bool
  | none => true
  | some (Value.num q) => decide (q ≤ 0)
  | some Value.nonNum => false

/-- `ValidationService._validate_required`: true iff the value is not
`None`. -/
def validate_required (value : Option Value) : Bool :=
  value.isSome

/-- The rule registry `self.validation_rules` built in
`ValidationService.__init__`: a fixed mapping from rule name to
predicate; unknown names are absent. -/
def validation_rules (name : String) : Option (Option Value → Bool) :=
  if name = "must_be_positive" then some validate_positive
  else if name = "must_be_negative_or_zero" then some validate_negative_or_zero
  else if name = "required_field" then some validate_required
  else none

/-- `field_map = {f.field_id: f for f in fields}`: a Python dict
comprehension keeps the LAST entry for a duplicated key, hence the lookup
scans the reversed list. -/
def field_map_get (fields : List TemplateField) (id : String) : Option TemplateField :=
  fields.reverse.find? (fun f => f.field_id == id)

/-- `field_map = {f.field_id: f.value for f in fields if f.value is not
None}` used by the cross-field validators. -/
def value_map (fields : List TemplateField) : String → Option Value :=
  fun id =>
    ((fields.filter (fun f => f.value.isSome)).reverse.find?
      (fun f => f.field_id == id)).bind (fun f => f.value)

/-- The `required_field` error issue appended by `validate_fields` when a
required field is missing or null. -/
def required_issue (fd : FieldDef) : ValidationIssue :=
  { severity := "error"
    field_id := some fd.field_id
    message := "Required field " ++ fd.field_name ++ " is missing"
    rule := "required_field" }

/-- One iteration of the rule loop of `validate_fields`: a rule name not
present in the registry is skipped; a registered predicate that rejects
the value yields an error issue. -/
def rule_issue (fd : FieldDef) (value : Option Value) (rule_name : String) :
    Option ValidationIssue :=
  match validation_rules rule_name with
  | none => none
  | some validator =>
    if validator value then none
    else some
      { severity := "error"
        field_id := some fd.field_id
        message := "Field " ++ fd.field_name ++ " failed validation: " ++ rule_name
        rule := rule_name }

/-- The issues appended by the rule loop of `validate_fields` for one
field definition, in rule order. -/
def rule_issues (fd : FieldDef) (value : Option Value) : List ValidationIssue :=
  fd.validation_rules.filterMap (rule_issue fd value)

/-- The `confidence_threshold` warning issue of `validate_fields`
(`confidence_score` percentage formatting abstracted). -/
def confidence_issue (fd : FieldDef) (f : TemplateField) : ValidationIssue :=
  { severity := "warning"
    field_id := some fd.field_id
    message := "Low confidence score (" ++ toString f.confidence_score
      ++ ") for field " ++ fd.field_name
    rule := "confidence_threshold" }

/-- The body of the per-field loop of `ValidationService.validate_fields`
for one field definition: required check (with `continue`), skip of
unpopulated fields, rule loop, confidence check. -/
def check_field (fields : List TemplateField) (fd : FieldDef) : List ValidationIssue :=
  match field_map_get fields fd.field_id with
  | none => if fd.required then [required_issue fd] else []
  | some f =>
    match f.value with
    | none => if fd.required then [required_issue fd] else []
    | some v =>
      rule_issues fd (some v) ++
        (if f.confidence_score < 0.5 then [confidence_issue fd f] else [])

/-- The section/field double loop of `validate_fields`. -/
def per_field_issues (fields : List TemplateField) (schema : TemplateSchema) :
    List ValidationIssue :=
  schema.sections.flatMap (fun s => s.fields.flatMap (check_field fields))

/-- All field definitions of a schema in section order then field order
(also `TemplateService.get_all_field_ids` flattening order). -/
def all_field_defs (schema : TemplateSchema) : List FieldDef :=
  schema.sections.flatMap (fun s => s.fields)

/-- `field_map.get(id, 0)` in a numeric context.  A non-null value that
is not coercible to a number would raise `TypeError` in the source
arithmetic; the model reads it as `0`, and every arithmetic property
below is exercised on numeric inputs only. -/
def getD0 (m : String → Option Value) (id : String) : ℚ :=
  match m id with
  | some (Value.num q) => q
  | some Value.nonNum => 0
  | none => 0

/-- `calculated_cet1 = sum(cet1_components) + adjustments` of
`_validate_cr1_rules` (V2). -/
def calculated_cet1 (m : String → Option Value) : ℚ :=
  (getD0 m "CR1_010_010" + getD0 m "CR1_020_010" + getD0 m "CR1_030_010" +
    getD0 m "CR1_040_010" + getD0 m "CR1_050_010") + getD0 m "CR1_100_010"

/-- V2 of `_validate_cr1_rules`: total CET1 cross-check, skipped when the
reported field is absent, error when the discrepancy exceeds 1. -/
def cr1_cet1_check (m : String → Option Value) : List ValidationIssue :=
  match m "CR1_500_010" with
  | some (Value.num reported) =>
    if abs (calculated_cet1 m - reported) > 1 then
      [{ severity := "error"
         field_id := some "CR1_500_010"
         message := "Total CET1 (" ++ toString reported
           ++ ") does not match sum of components ("
           ++ toString (calculated_cet1 m) ++ ")"
         rule := "cr1_cet1_calculation" }]
    else []
  | _ => []

/-- `calculated_tier1 = cet1 + at1` of `_validate_cr1_rules` (V3). -/
def calculated_tier1 (m : String → Option Value) : ℚ :=
  getD0 m "CR1_500_010" + getD0 m "CR1_150_010"

/-- V3 of `_validate_cr1_rules`: total Tier 1 cross-check. -/
def cr1_tier1_check (m : String → Option Value) : List ValidationIssue :=
  match m "CR1_600_010" with
  | some (Value.num reported) =>
    if abs (calculated_tier1 m - reported) > 1 then
      [{ severity := "error"
         field_id := some "CR1_600_010"
         message := "Total Tier 1 (" ++ toString reported
           ++ ") does not match CET1 + AT1 ("
           ++ toString (calculated_tier1 m) ++ ")"
         rule := "cr1_tier1_calculation" }]
    else []
  | _ => []

/-- `calculated_own_funds = tier1 + tier2` of `_validate_cr1_rules` (V4). -/
def calculated_own_funds (m : String → Option Value) : ℚ :=
  getD0 m "CR1_600_010" + getD0 m "CR1_200_010"

/-- V4 of `_validate_cr1_rules`: total own funds cross-check. -/
def cr1_own_funds_check (m : String → Option Value) : List ValidationIssue :=
  match m "CR1_700_010" with
  | some (Value.num reported) =>
    if abs (calculated_own_funds m - reported) > 1 then
      [{ severity := "error"
         field_id := some "CR1_700_010"
         message := "Total own funds (" ++ toString reported
           ++ ") does not match Tier 1 + Tier 2 ("
           ++ toString (calculated_own_funds m) ++ ")"
         rule := "cr1_own_funds_calculation" }]
    else []
  | _ => []

/-- V6 of `_validate_cr1_rules`: reported CET1 must not be negative
(skipped when absent). -/
def cr1_min_cet1_check (m : String → Option Value) : List ValidationIssue :=
  match m "CR1_500_010" with
  | some (Value.num cet1_amount) =>
    if cet1_amount < 0 then
      [{ severity := "error"
         field_id := some "CR1_500_010"
         message := "CET1 capital cannot be negative"
         rule := "cr1_minimum_cet1" }]
    else []
  | _ => []

/-- `ValidationService._validate_cr1_rules`: the four checks in source
order. -/
def validate_cr1_rules (m : String → Option Value) : List ValidationIssue :=
  cr1_cet1_check m ++ cr1_tier1_check m ++ cr1_own_funds_check m ++
    cr1_min_cet1_check m

/-- `calculated_rwa` of `_validate_cr2_rules`. -/
def calculated_rwa (m : String → Option Value) : ℚ :=
  getD0 m "CR2_010_010" + getD0 m "CR2_020_010" +
    (getD0 m "CR2_050_010" + getD0 m "CR2_060_010") * 12.5

/-- Total RWA cross-check of `_validate_cr2_rules`. -/
def cr2_rwa_check (m : String → Option Value) : List ValidationIssue :=
  match m "CR2_100_010" with
  | some (Value.num reported) =>
    if abs (calculated_rwa m - reported) > 1 then
      [{ severity := "error"
         field_id := some "CR2_100_010"
         message := "Total RWA (" ++ toString reported
           ++ ") does not match calculated RWA ("
           ++ toString (calculated_rwa m) ++ ")"
         rule := "cr2_rwa_calculation" }]
    else []
  | _ => []

/-- Credit-risk presence warning of `_validate_cr2_rules`: both the
standardised and the IRB figure read as zero. -/
def cr2_credit_check (m : String → Option Value) : List ValidationIssue :=
  if getD0 m "CR2_010_010" = 0 ∧ getD0 m "CR2_020_010" = 0 then
    [{ severity := "warning"
       field_id := some "CR2_010_010"
       message := "No credit risk exposure reported (both Standardised and IRB are zero)"
       rule := "cr2_credit_risk_required" }]
  else []

/-- `ValidationService._validate_cr2_rules`. -/
def validate_cr2_rules (m : String → Option Value) : List ValidationIssue :=
  cr2_rwa_check m ++ cr2_credit_check m

/-- `ValidationService._validate_cross_field_rules`: dispatch on the
template type; no branch for any other type.  The `template_schema`
argument of the source method is unused by its body. -/
def validate_cross_field_rules (fields : List TemplateField)
    (template_type : String) (template_schema : TemplateSchema) :
    List ValidationIssue :=
  if template_type = own_funds_cr1 then validate_cr1_rules (value_map fields)
  else if template_type = capital_requirements_cr2 then
    validate_cr2_rules (value_map fields)
  else []

/-- `ValidationService.validate_fields`: per-field walk then cross-field
issues appended. -/
def validate_fields (fields : List TemplateField) (template_type : String)
    (template_schema : TemplateSchema) : List ValidationIssue :=
  per_field_issues fields template_schema ++
    validate_cross_field_rules fields template_type template_schema

/-- The summary dictionary of
`ValidationService.generate_validation_summary`. -/
structure ValidationSummary where
  total_issues : Nat
  errors : Nat
  warnings : Nat
  info : Nat
  is_valid : Bool
deriving DecidableEq

/-- `ValidationService.generate_validation_summary`. -/
def generate_validation_summary (issues : List ValidationIssue) :
    ValidationSummary :=
  let error_count := issues.countP (fun i => i.severity == "error")
  let warning_count := issues.countP (fun i => i.severity == "warning")
  let info_count := issues.countP (fun i => i.severity == "info")
  { total_issues := issues.length
    errors := error_count
    warnings := warning_count
    info := info_count
    is_valid := error_count == 0 }

/-- Does some issue of the list carry the given rule name? -/
def has_rule (issues : List ValidationIssue) (r : String) : Bool :=
  issues.any (fun i => i.rule == r)

/-- `TemplateService._get_cr1_schema`. -/
def cr1_schema : TemplateSchema :=
  { template_name := "CR1 - Own Funds"
    description := "Breakdown of institution own funds and regulatory capital"
    sections :=
      [ { section_id := "cet1_capital"
          section_name := "Common Equity Tier 1 Capital"
          fields :=
            [ { field_id := "CR1_010_010"
                field_name := "Capital instruments and related share premium accounts"
                data_type := "number", required := true
                validation_rules := ["must_be_positive"], formula := none }
            , { field_id := "CR1_020_010", field_name := "Retained earnings"
                data_type := "number", required := true
                validation_rules := [], formula := none }
            , { field_id := "CR1_030_010"
                field_name := "Accumulated other comprehensive income"
                data_type := "number", required := true
                validation_rules := [], formula := none }
            , { field_id := "CR1_040_010", field_name := "Other reserves"
                data_type := "number", required := false
                validation_rules := [], formula := none }
            , { field_id := "CR1_050_010"
                field_name := "Funds for general banking risk"
                data_type := "number", required := false
                validation_rules := [], formula := none } ] }
      , { section_id := "cet1_adjustments"
          section_name := "CET1 Regulatory Adjustments"
          fields :=
            [ { field_id := "CR1_100_010"
                field_name := "Total regulatory adjustments to CET1"
                data_type := "number", required := true
                validation_rules := ["must_be_negative_or_zero"], formula := none }
            , { field_id := "CR1_110_010"
                field_name := "Intangible assets (net of tax)"
                data_type := "number", required := true
                validation_rules := [], formula := none }
            , { field_id := "CR1_120_010", field_name := "Deferred tax assets"
                data_type := "number", required := true
                validation_rules := [], formula := none } ] }
      , { section_id := "tier1_tier2"
          section_name := "Additional Tier 1 and Tier 2 Capital"
          fields :=
            [ { field_id := "CR1_150_010"
                field_name := "Additional Tier 1 capital"
                data_type := "number", required := true
                validation_rules := [], formula := none }
            , { field_id := "CR1_200_010", field_name := "Tier 2 capital"
                data_type := "number", required := true
                validation_rules := [], formula := none } ] }
      , { section_id := "totals"
          section_name := "Total Own Funds"
          fields :=
            [ { field_id := "CR1_500_010"
                field_name := "Total Common Equity Tier 1 capital"
                data_type := "number", required := true
                validation_rules := ["must_be_positive"]
                formula := some "sum(CR1_010_010:CR1_050_010) - CR1_100_010" }
            , { field_id := "CR1_600_010", field_name := "Total Tier 1 capital"
                data_type := "number", required := true
                validation_rules := ["must_be_positive"]
                formula := some "CR1_500_010 + CR1_150_010" }
            , { field_id := "CR1_700_010", field_name := "Total own funds"
                data_type := "number", required := true
                validation_rules := ["must_be_positive"]
                formula := some "CR1_600_010 + CR1_200_010" } ] } ] }

/-- `TemplateService._get_cr2_schema`. -/
def cr2_schema : TemplateSchema :=
  { template_name := "CR2 - Capital Requirements"
    description := "Institution capital requirements by risk type"
    sections :=
      [ { section_id := "credit_risk", section_name := "Credit Risk"
          fields :=
            [ { field_id := "CR2_010_010"
                field_name := "Credit risk (Standardised approach) - RWA"
                data_type := "number", required := true
                validation_rules := ["must_be_positive"], formula := none }
            , { field_id := "CR2_020_010"
                field_name := "Credit risk (IRB approach) - RWA"
                data_type := "number", required := false
                validation_rules := ["must_be_positive"], formula := none } ] }
      , { section_id := "other_risks", section_name := "Other Risk Types"
          fields :=
            [ { field_id := "CR2_050_010"
                field_name := "Market risk - Own funds requirement"
                data_type := "number", required := true
                validation_rules := [], formula := none }
            , { field_id := "CR2_060_010"
                field_name := "Operational risk - Own funds requirement"
                data_type := "number", required := true
                validation_rules := ["must_be_positive"], formula := none } ] }
      , { section_id := "total_requirements"
          section_name := "Total Capital Requirements"
          fields :=
            [ { field_id := "CR2_100_010"
                field_name := "Total risk exposure amount"
                data_type := "number", required := true
                validation_rules := ["must_be_positive"]
                formula := some
                  "sum(CR2_010_010, CR2_020_010) + (CR2_050_010 + CR2_060_010) * 12.5" } ] } ] }

/-- `TemplateService.get_template_schema`: the dictionary lookup of
`self.templates` with the empty dictionary as default. -/
def get_template_schema (template_type : String) : TemplateSchema :=
  if template_type = own_funds_cr1 then cr1_schema
  else if template_type = capital_requirements_cr2 then cr2_schema
  else empty_schema

/-- Pointwise update of a field-value map, used to state that a missing
numeric input behaves exactly like a supplied `0`. -/
def update_map (m : String → Option Value) (id : String) (v : Option Value) :
    String → Option Value :=
  fun k => if k = id then v else m k

/-- `not field or field.value is None` for the looked-up field of one
field definition. -/
def unpopulated (fields : List TemplateField) (id : String) : Bool :=
  match field_map_get fields id with
  | none => true
  | some f => f.value.isNone

/-- The CR1-style input of end-to-end scenario C of the spec:
`CR1_010_010=100, CR1_020_010=50, CR1_100_010=-20, CR1_500_010=131`. -/
def scenario_c_fields : List TemplateField :=
  [ { field_id := "CR1_010_010", field_name := "Capital instruments"
      value := some (Value.num 100), justification := ""
      regulatory_references := [], confidence_score := 0.9 }
  , { field_id := "CR1_020_010", field_name := "Retained earnings"
      value := some (Value.num 50), justification := ""
      regulatory_references := [], confidence_score := 0.9 }
  , { field_id := "CR1_100_010", field_name := "Adjustments"
      value := some (Value.num (-20)), justification := ""
      regulatory_references := [], confidence_score := 0.9 }
  , { field_id := "CR1_500_010", field_name := "Total CET1"
      value := some (Value.num 131), justification := ""
      regulatory_references := [], confidence_score := 0.9 } ]

/-- A minimal required field definition (field `X`, rule
`must_be_positive`), as in end-to-end scenarios A and B of the spec. -/
def x_field_def : FieldDef :=
  { field_id := "X", field_name := "X", data_type := "number"
    required := true, validation_rules := ["must_be_positive"]
    formula := none }

/-- A one-section schema holding only `x_field_def`. -/
def x_schema : TemplateSchema :=
  { template_name := "X", description := ""
    sections := [ { section_id := "s", section_name := "S"
                    fields := [x_field_def] } ] }

/-- A proposed field for `X` with a null value and low confidence. -/
def null_low_conf_field : TemplateField :=
  { field_id := "X", field_name := "X", value := none, justification := ""
    regulatory_references := [], confidence_score := 0.3 }

/-- A populated proposed field for `X` with low confidence. -/
def low_conf_field : TemplateField :=
  { field_id := "X", field_name := "X", value := some (Value.num 10)
    justification := "", regulatory_references := [], confidence_score := 0.3 }

/-- A populated proposed field for `X` with confidence exactly `0.49`. -/
def x49_field : TemplateField :=
  { field_id := "X", field_name := "X", value := some (Value.num 10)
    justification := "", regulatory_references := [], confidence_score := 0.49 }

/-- A field definition referencing an unknown rule name before a known
one. -/
def bogus_rules_def : FieldDef :=
  { field_id := "X", field_name := "X", data_type := "number"
    required := false, validation_rules := ["bogus_rule", "must_be_positive"]
    formula := none }

lemma has_rule_append (a b : List ValidationIssue) (r : String) :
    has_rule (a ++ b) r = (has_rule a r || has_rule b r) := by
  simp [has_rule]

lemma has_rule_eq_false_iff (issues : List ValidationIssue) (r : String) :
    has_rule issues r = false ↔ ∀ i ∈ issues, i.rule ≠ r := by
  simp [has_rule, List.any_eq_false]

lemma has_rule_eq_true_iff (issues : List ValidationIssue) (r : String) :
    has_rule issues r = true ↔ ∃ i ∈ issues, i.rule = r := by
  simp [has_rule, List.any_eq_true]

lemma mem_rule_issues {fd : FieldDef} {v : Option Value} {i : ValidationIssue}
    (hi : i ∈ rule_issues fd v) :
    i.severity = "error" ∧ i.field_id = some fd.field_id ∧
      (validation_rules i.rule).isSome = true := by
  rcases List.mem_filterMap.mp hi with ⟨name, _hmem, hname⟩
  unfold rule_issue at hname
  rcases hreg : validation_rules name with _ | validator <;> rw [hreg] at hname
  · cases hname
  · split at hname
    · cases hname
    · split at hname
      · cases hname
      · simp only [Option.some.injEq] at hname
        subst hname
        exact ⟨rfl, rfl, by simp [hreg]⟩

lemma mem_check_field {fields : List TemplateField} {fd : FieldDef}
    {i : ValidationIssue} (hi : i ∈ check_field fields fd) :
    (i.severity = "error" ∨ i.severity = "warning") ∧
      i.field_id = some fd.field_id := by
  unfold check_field at hi
  rcases hf : field_map_get fields fd.field_id with _ | f <;>
      simp only [hf] at hi
  · split at hi
    · simp only [List.mem_singleton] at hi
      subst hi
      exact ⟨Or.inl rfl, rfl⟩
    · simp at hi
  · rcases hv : f.value with _ | v <;> simp only [hv] at hi
    · split at hi
      · simp only [List.mem_singleton] at hi
        subst hi
        exact ⟨Or.inl rfl, rfl⟩
      · simp at hi
    · rcases List.mem_append.mp hi with h | h
      · rcases mem_rule_issues h with ⟨hs, hfid, _⟩
        exact ⟨Or.inl hs, hfid⟩
      · split at h
        · simp only [List.mem_singleton] at h
          subst h
          exact ⟨Or.inr rfl, rfl⟩
        · simp at h

lemma per_field_issues_eq (fields : List TemplateField) (schema : TemplateSchema) :
    per_field_issues fields schema =
      (all_field_defs schema).flatMap (check_field fields) := by
  unfold per_field_issues all_field_defs
  generalize schema.sections = L
  induction L with
  | nil => rfl
  | cons s rest ih => simp [ih]

lemma mem_cr1_cet1_check {m : String → Option Value} {i : ValidationIssue}
    (hi : i ∈ cr1_cet1_check m) :
    i.severity = "error" ∧ i.field_id = some "CR1_500_010" ∧
      i.rule = "cr1_cet1_calculation" := by
  rcases hr : m "CR1_500_010" with _ | (q | _) <;>
      simp only [cr1_cet1_check, hr] at hi
  · simp at hi
  · split at hi
    · simp only [List.mem_singleton] at hi
      subst hi
      exact ⟨rfl, rfl, rfl⟩
    · simp at hi
  · simp at hi

lemma mem_cr1_tier1_check {m : String → Option Value} {i : ValidationIssue}
    (hi : i ∈ cr1_tier1_check m) :
    i.severity = "error" ∧ i.field_id = some "CR1_600_010" ∧
      i.rule = "cr1_tier1_calculation" := by
  rcases hr : m "CR1_600_010" with _ | (q | _) <;>
      simp only [cr1_tier1_check, hr] at hi
  · simp at hi
  · split at hi
    · simp only [List.mem_singleton] at hi
      subst hi
      exact ⟨rfl, rfl, rfl⟩
    · simp at hi
  · simp at hi

lemma mem_cr1_own_funds_check {m : String → Option Value} {i : ValidationIssue}
    (hi : i ∈ cr1_own_funds_check m) :
    i.severity = "error" ∧ i.field_id = some "CR1_700_010" ∧
      i.rule = "cr1_own_funds_calculation" := by
  rcases hr : m "CR1_700_010" with _ | (q | _) <;>
      simp only [cr1_own_funds_check, hr] at hi
  · simp at hi
  · split at hi
    · simp only [List.mem_singleton] at hi
      subst hi
      exact ⟨rfl, rfl, rfl⟩
    · simp at hi
  · simp at hi

lemma mem_cr1_min_cet1_check {m : String → Option Value} {i : ValidationIssue}
    (hi : i ∈ cr1_min_cet1_check m) :
    i.severity = "error" ∧ i.field_id = some "CR1_500_010" ∧
      i.rule = "cr1_minimum_cet1" := by
  rcases hr : m "CR1_500_010" with _ | (q | _) <;>
      simp only [cr1_min_cet1_check, hr] at hi
  · simp at hi
  · split at hi
    · simp only [List.mem_singleton] at hi
      subst hi
      exact ⟨rfl, rfl, rfl⟩
    · simp at hi
  · simp at hi

lemma mem_cr2_rwa_check {m : String → Option Value} {i : ValidationIssue}
    (hi : i ∈ cr2_rwa_check m) :
    i.severity = "error" ∧ i.field_id = some "CR2_100_010" ∧
      i.rule = "cr2_rwa_calculation" := by
  rcases hr : m "CR2_100_010" with _ | (q | _) <;>
      simp only [cr2_rwa_check, hr] at hi
  · simp at hi
  · split at hi
    · simp only [List.mem_singleton] at hi
      subst hi
      exact ⟨rfl, rfl, rfl⟩
    · simp at hi
  · simp at hi

lemma mem_cr2_credit_check {m : String → Option Value} {i : ValidationIssue}
    (hi : i ∈ cr2_credit_check m) :
    i.severity = "warning" ∧ i.field_id = some "CR2_010_010" ∧
      i.rule = "cr2_credit_risk_required" := by
  unfold cr2_credit_check at hi
  split at hi
  · simp only [List.mem_singleton] at hi
    subst hi
    exact ⟨rfl, rfl, rfl⟩
  · simp at hi

lemma mem_validate_cr1_rules {m : String → Option Value} {i : ValidationIssue}
    (hi : i ∈ validate_cr1_rules m) :
    i.severity = "error" ∧ i.field_id.isSome = true := by
  unfold validate_cr1_rules at hi
  rcases List.mem_append.mp hi with h | h
  · rcases List.mem_append.mp h with h | h
    · rcases List.mem_append.mp h with h | h
      · rcases mem_cr1_cet1_check h with ⟨hs, hf, _⟩
        exact ⟨hs, by simp [hf]⟩
      · rcases mem_cr1_tier1_check h with ⟨hs, hf, _⟩
        exact ⟨hs, by simp [hf]⟩
    · rcases mem_cr1_own_funds_check h with ⟨hs, hf, _⟩
      exact ⟨hs, by simp [hf]⟩
  · rcases mem_cr1_min_cet1_check h with ⟨hs, hf, _⟩
    exact ⟨hs, by simp [hf]⟩

lemma mem_validate_cr2_rules {m : String → Option Value} {i : ValidationIssue}
    (hi : i ∈ validate_cr2_rules m) :
    (i.severity = "error" ∨ i.severity = "warning") ∧
      i.field_id.isSome = true := by
  unfold validate_cr2_rules at hi
  rcases List.mem_append.mp hi with h | h
  · rcases mem_cr2_rwa_check h with ⟨hs, hf, _⟩
    exact ⟨Or.inl hs, by simp [hf]⟩
  · rcases mem_cr2_credit_check h with ⟨hs, hf, _⟩
    exact ⟨Or.inr hs, by simp [hf]⟩

lemma mem_validate_fields {fields : List TemplateField} {t : String}
    {schema : TemplateSchema} {i : ValidationIssue}
    (hi : i ∈ validate_fields fields t schema) :
    (i.severity = "error" ∨ i.severity = "warning") ∧
      i.field_id.isSome = true := by
  unfold validate_fields at hi
  rcases List.mem_append.mp hi with h | h
  · rw [per_field_issues_eq] at h
    rcases List.mem_flatMap.mp h with ⟨fd, _, hmem⟩
    rcases mem_check_field hmem with ⟨hs, hf⟩
    exact ⟨hs, by simp [hf]⟩
  · unfold validate_cross_field_rules at h
    split at h
    · rcases mem_validate_cr1_rules h with ⟨hs, hf⟩
      exact ⟨Or.inl hs, hf⟩
    · split at h
      · exact mem_validate_cr2_rules h
      · simp at h

lemma check_field_unpopulated (fields : List TemplateField) (fd : FieldDef)
    (hun : unpopulated fields fd.field_id = true) :
    check_field fields fd = if fd.required then [required_issue fd] else [] := by
  unfold unpopulated at hun
  unfold check_field
  rcases hm : field_map_get fields fd.field_id with _ | f
  · simp [hm]
  · simp only [hm] at hun
    rcases hv : f.value with _ | v
    · simp [hm, hv]
    · rw [hv] at hun
      simp at hun

lemma validate_cr1_rules_congr (m₁ m₂ : String → Option Value)
    (h5 : m₁ "CR1_500_010" = m₂ "CR1_500_010")
    (h6 : m₁ "CR1_600_010" = m₂ "CR1_600_010")
    (h7 : m₁ "CR1_700_010" = m₂ "CR1_700_010")
    (hg : ∀ k, getD0 m₁ k = getD0 m₂ k) :
    validate_cr1_rules m₁ = validate_cr1_rules m₂ := by
  unfold validate_cr1_rules cr1_cet1_check cr1_tier1_check cr1_own_funds_check
    cr1_min_cet1_check calculated_cet1 calculated_tier1 calculated_own_funds
  simp only [h5, h6, h7, hg]

lemma validate_cr2_rules_congr (m₁ m₂ : String → Option Value)
    (h100 : m₁ "CR2_100_010" = m₂ "CR2_100_010")
    (hg : ∀ k, getD0 m₁ k = getD0 m₂ k) :
    validate_cr2_rules m₁ = validate_cr2_rules m₂ := by
  unfold validate_cr2_rules cr2_rwa_check cr2_credit_check calculated_rwa
  simp only [h100, hg]

/-- C1: on the scenario-C input (`CR1_010_010=100`, `CR1_020_010=50`,
`CR1_100_010=-20`, `CR1_500_010=131`) the computed CET1 total is `130`,
the absolute difference from the reported value is exactly `1`, and no
`cr1_cet1_calculation` error is emitted; in general, for any field map
reporting CET1, a discrepancy of exactly `1` produces no such error while
a discrepancy of `1.01`, or any discrepancy strictly greater than `1`,
produces one. -/
theorem claim_C1 (m : String → Option Value) (r : ℚ)
    (hrep : m "CR1_500_010" = some (Value.num r)) :
    (calculated_cet1 (value_map scenario_c_fields) = 130 ∧
      abs (calculated_cet1 (value_map scenario_c_fields) - 131) = 1 ∧
      has_rule (validate_fields scenario_c_fields own_funds_cr1 cr1_schema)
        "cr1_cet1_calculation" = false) ∧
    (abs (calculated_cet1 m - r) = 1 →
      has_rule (validate_cr1_rules m) "cr1_cet1_calculation" = false) ∧
    (abs (calculated_cet1 m - r) = 1.01 →
      has_rule (validate_cr1_rules m) "cr1_cet1_calculation" = true) ∧
    (abs (calculated_cet1 m - r) > 1 →
      has_rule (validate_cr1_rules m) "cr1_cet1_calculation" = true) := by
  have hcet : cr1_cet1_check m =
      (if abs (calculated_cet1 m - r) > 1 then
        [{ severity := "error", field_id := some "CR1_500_010"
           message := "Total CET1 (" ++ toString r
             ++ ") does not match sum of components ("
             ++ toString (calculated_cet1 m) ++ ")"
           rule := "cr1_cet1_calculation" }]
      else []) := by
    simp [cr1_cet1_check, hrep]
  have htier : has_rule (cr1_tier1_check m) "cr1_cet1_calculation" = false := by
    rw [has_rule_eq_false_iff]
    intro i hi
    rw [(mem_cr1_tier1_check hi).2.2]
    decide
  have hown : has_rule (cr1_own_funds_check m) "cr1_cet1_calculation" = false := by
    rw [has_rule_eq_false_iff]
    intro i hi
    rw [(mem_cr1_own_funds_check hi).2.2]
    decide
  have hmin : has_rule (cr1_min_cet1_check m) "cr1_cet1_calculation" = false := by
    rw [has_rule_eq_false_iff]
    intro i hi
    rw [(mem_cr1_min_cet1_check hi).2.2]
    decide
  have hgt : abs (calculated_cet1 m - r) > 1 →
      has_rule (validate_cr1_rules m) "cr1_cet1_calculation" = true := by
    intro h1
    unfold validate_cr1_rules
    simp [has_rule_append, hcet, if_pos h1, has_rule]
  refine ⟨⟨?_, ?_, ?_⟩, ?_, ?_, hgt⟩
  · simp [calculated_cet1, value_map, getD0, scenario_c_fields, List.find?,
      List.filter, List.reverse, List.reverseAux, Option.bind, Option.isSome]
    norm_num
  · simp [calculated_cet1, value_map, getD0, scenario_c_fields, List.find?,
      List.filter, List.reverse, List.reverseAux, Option.bind, Option.isSome]
    norm_num
  · simp [validate_fields, per_field_issues, check_field, field_map_get,
      scenario_c_fields, cr1_schema, validate_cross_field_rules, own_funds_cr1,
      capital_requirements_cr2, validate_cr1_rules, cr1_cet1_check,
      cr1_tier1_check, cr1_own_funds_check, cr1_min_cet1_check, value_map,
      getD0, calculated_cet1, calculated_tier1, calculated_own_funds,
      rule_issues, rule_issue, validation_rules, validate_positive,
      validate_negative_or_zero, validate_required, has_rule, required_issue,
      confidence_issue, List.find?, List.filter, List.reverse, List.reverseAux,
      Option.bind, Option.isSome, List.flatMap, List.any, empty_schema]
    norm_num
  · intro h1
    have hnot : ¬ abs (calculated_cet1 m - r) > 1 := by
      rw [h1]
      norm_num
    unfold validate_cr1_rules
    rw [has_rule_append, has_rule_append, has_rule_append, hcet, if_neg hnot,
      htier, hown, hmin]
    simp [has_rule]
  · intro h1
    apply hgt
    rw [h1]
    norm_num

/-- C1 witness: the theorem applied to the scenario-C value map, whose
reported CET1 is `131`. -/
theorem claim_C1_witness :
    value_map scenario_c_fields "CR1_500_010" = some (Value.num 131) ∧
    (abs (calculated_cet1 (value_map scenario_c_fields) - 131) = 1 →
      has_rule (validate_cr1_rules (value_map scenario_c_fields))
        "cr1_cet1_calculation" = false) := by
  have h : value_map scenario_c_fields "CR1_500_010" = some (Value.num 131) := by
    simp [value_map, scenario_c_fields, List.find?, List.filter, List.reverse,
      List.reverseAux, Option.bind, Option.isSome]
  exact ⟨h, (claim_C1 (value_map scenario_c_fields) 131 h).2.1⟩

/-- C4: the validation summary is a pure reduction: `total_issues` is the
length of the list, the per-severity counts are the lengths of the
corresponding partitions, and `is_valid` holds iff the error count is
zero. -/
theorem claim_C4 (issues : List ValidationIssue) :
    (generate_validation_summary issues).total_issues = issues.length ∧
    (generate_validation_summary issues).errors =
      (issues.filter (fun i => i.severity = "error")).length ∧
    (generate_validation_summary issues).warnings =
      (issues.filter (fun i => i.severity = "warning")).length ∧
    (generate_validation_summary issues).info =
      (issues.filter (fun i => i.severity = "info")).length ∧
    ((generate_validation_summary issues).is_valid = true ↔
      (issues.filter (fun i => i.severity = "error")).length = 0) := by
  have h : ∀ s : String, (fun i : ValidationIssue => i.severity == s)
      = (fun i : ValidationIssue => decide (i.severity = s)) := by
    intro s
    funext i
    cases hd : decide (i.severity = s) <;> simp_all
  refine ⟨rfl, ?_, ?_, ?_, ?_⟩ <;>
    simp [generate_validation_summary, List.countP_eq_length_filter, h]

/-- C5: the concrete truth table of the rule predicates, including the
non-numeric non-null case, and their registration in the rule registry. -/
theorem claim_C5 :
    validate_positive (some (Value.num 0)) = false ∧
    validate_positive (some (Value.num (-5))) = false ∧
    validate_positive (some (Value.num 10)) = true ∧
    validate_positive none = false ∧
    validate_negative_or_zero none = true ∧
    validate_negative_or_zero (some (Value.num 0)) = true ∧
    validate_negative_or_zero (some (Value.num 5)) = false ∧
    validate_positive (some Value.nonNum) = false ∧
    validate_negative_or_zero (some Value.nonNum) = false ∧
    validation_rules "must_be_positive" = some validate_positive ∧
    validation_rules "must_be_negative_or_zero" =
      some validate_negative_or_zero := by
  refine ⟨?_, ?_, ?_, rfl, rfl, ?_, ?_, rfl, rfl, ?_, ?_⟩
  · norm_num [validate_positive]
  · norm_num [validate_positive]
  · norm_num [validate_positive]
  · norm_num [validate_negative_or_zero]
  · norm_num [validate_negative_or_zero]
  · unfold validation_rules
    rw [if_pos rfl]
  · unfold validation_rules
    rw [if_neg (by decide), if_pos rfl]

/-- C2 counterexample: a proposed field for the required schema field `X`
with a null value and confidence `0.3 < 0.5` is matched by field id, the
required-field check fires, and yet NO `confidence_threshold` warning is
emitted — the claim that the confidence warning is emitted regardless of
the required-field outcome and also for null values is false on the
code. -/
theorem claim_C2_counterexample :
    null_low_conf_field.confidence_score < 0.5 ∧
    field_map_get [null_low_conf_field] "X" = some null_low_conf_field ∧
    has_rule (validate_fields [null_low_conf_field] "x_template" x_schema)
      "required_field" = true ∧
    has_rule (validate_fields [null_low_conf_field] "x_template" x_schema)
      "confidence_threshold" = false := by
  refine ⟨by norm_num [null_low_conf_field], ?_, ?_, ?_⟩
  · simp [field_map_get, null_low_conf_field, List.find?, List.reverse,
      List.reverseAux]
  · simp [validate_fields, per_field_issues, check_field, field_map_get,
      null_low_conf_field, x_schema, x_field_def, validate_cross_field_rules,
      own_funds_cr1, capital_requirements_cr2, has_rule, required_issue,
      List.find?, List.reverse, List.reverseAux, List.flatMap, List.any]
  · simp [validate_fields, per_field_issues, check_field, field_map_get,
      null_low_conf_field, x_schema, x_field_def, validate_cross_field_rules,
      own_funds_cr1, capital_requirements_cr2, has_rule, required_issue,
      List.find?, List.reverse, List.reverseAux, List.flatMap, List.any]

/-- C2 (amended): for every proposed field with a NON-NULL value matched
to a schema field definition whose confidence score is below `0.5`, the
validator emits the `confidence_threshold` warning, regardless of the
outcomes of the per-field rule checks; when the matched value is null the
per-field loop stops before the confidence check (after the
required-field error if the field is required), so no warning is
emitted then. -/
theorem claim_C2 (fields : List TemplateField) (t : String)
    (schema : TemplateSchema) (fd : FieldDef) (f : TemplateField)
    (hfd : fd ∈ all_field_defs schema)
    (hm : field_map_get fields fd.field_id = some f)
    (hv : f.value.isSome = true) (hc : f.confidence_score < 0.5) :
    confidence_issue fd f ∈ validate_fields fields t schema := by
  rcases Option.isSome_iff_exists.mp hv with ⟨v, hveq⟩
  unfold validate_fields
  apply List.mem_append_left
  rw [per_field_issues_eq]
  apply List.mem_flatMap.mpr
  refine ⟨fd, hfd, ?_⟩
  simp only [check_field, hm, hveq]
  apply List.mem_append_right
  rw [if_pos hc]
  exact List.mem_singleton_self _

/-- C2 witness: the amended theorem applied to a populated field with
confidence `0.3` against the one-field schema. -/
theorem claim_C2_witness :
    x_field_def ∈ all_field_defs x_schema ∧
    field_map_get [low_conf_field] "X" = some low_conf_field ∧
    low_conf_field.confidence_score < 0.5 ∧
    confidence_issue x_field_def low_conf_field ∈
      validate_fields [low_conf_field] "x_template" x_schema := by
  have hfd : x_field_def ∈ all_field_defs x_schema := by
    simp [all_field_defs, x_schema]
  have hm : field_map_get [low_conf_field] "X" = some low_conf_field := by
    simp [field_map_get, low_conf_field, List.find?, List.reverse,
      List.reverseAux]
  have hc : low_conf_field.confidence_score < 0.5 := by
    norm_num [low_conf_field]
  exact ⟨hfd, hm, hc,
    claim_C2 [low_conf_field] "x_template" x_schema x_field_def low_conf_field
      hfd hm rfl hc⟩

/-- C3: when the looked-up field for a definition is absent or null, a
required definition contributes exactly one `required_field` error for
its field id to the per-field output (and, when the field id is unique in
the schema, that error is the only per-field finding carrying this field
id — in particular no rule-predicate finding), while a non-required
definition contributes no finding at all for that field id. -/
theorem claim_C3 (fields : List TemplateField) (schema : TemplateSchema)
    (fd : FieldDef) (hmem : fd ∈ all_field_defs schema)
    (huniq : (all_field_defs schema).countP
      (fun g => g.field_id == fd.field_id) = 1)
    (hun : unpopulated fields fd.field_id = true) :
    (fd.required = true →
      (per_field_issues fields schema).filter
          (fun i => i.field_id == some fd.field_id) = [required_issue fd] ∧
      (required_issue fd).severity = "error" ∧
      (required_issue fd).rule = "required_field") ∧
    (fd.required = false →
      (per_field_issues fields schema).filter
          (fun i => i.field_id == some fd.field_id) = []) := by
  have hsingle : ∀ (g : FieldDef), (g.field_id == fd.field_id) = false →
      (check_field fields g).filter
        (fun i => i.field_id == some fd.field_id) = [] := by
    intro g hg
    rw [List.filter_eq_nil_iff]
    intro i hi
    have hfid := (mem_check_field hi).2
    simp only [hfid, beq_iff_eq, Option.some.injEq]
    intro hcontra
    rw [hcontra] at hg
    simp at hg
  have key : ∀ (L : List FieldDef), fd ∈ L →
      L.countP (fun g => g.field_id == fd.field_id) = 1 →
      (L.flatMap (check_field fields)).filter
          (fun i => i.field_id == some fd.field_id) =
        (check_field fields fd).filter
          (fun i => i.field_id == some fd.field_id) := by
    intro L
    induction L with
    | nil => intro h _; cases h
    | cons g rest ih =>
      intro hmem2 huniq2
      rw [List.flatMap_cons, List.filter_append]
      rcases List.mem_cons.mp hmem2 with hfd | hfd
      · subst hfd
        have hrest : rest.countP (fun g => g.field_id == fd.field_id) = 0 := by
          have hself : (if (fd.field_id == fd.field_id) = true
              then 1 else 0) = 1 := by simp
          rw [List.countP_cons, hself] at huniq2
          omega
        have hrnil : (rest.flatMap (check_field fields)).filter
            (fun i => i.field_id == some fd.field_id) = [] := by
          rw [List.filter_eq_nil_iff]
          intro i hi
          rcases List.mem_flatMap.mp hi with ⟨g, hgmem, hgi⟩
          have hg : (g.field_id == fd.field_id) = false := by
            have := List.countP_eq_zero.mp hrest g hgmem
            simpa using this
          have hfid := (mem_check_field hgi).2
          simp only [hfid, beq_iff_eq, Option.some.injEq]
          intro hcontra
          rw [hcontra] at hg
          simp at hg
        rw [hrnil, List.append_nil]
      · have hone : 0 < rest.countP (fun g => g.field_id == fd.field_id) := by
          apply List.countP_pos_iff.mpr
          exact ⟨fd, hfd, by simp⟩
        have hg : (g.field_id == fd.field_id) = false := by
          cases hb : (g.field_id == fd.field_id)
          · rfl
          · exfalso
            have htrue : (if (g.field_id == fd.field_id) = true
                then 1 else 0) = 1 := by
              rw [hb]
              simp
            rw [List.countP_cons, htrue] at huniq2
            omega
        rw [hsingle g hg, List.nil_append]
        have hrest : rest.countP (fun g => g.field_id == fd.field_id) = 1 := by
          have hfalse : (if (g.field_id == fd.field_id) = true
              then 1 else 0) = 0 := by
            rw [hg]
            simp
          rw [List.countP_cons, hfalse] at huniq2
          omega
        exact ih hfd hrest
  have hmain : (per_field_issues fields schema).filter
      (fun i => i.field_id == some fd.field_id) =
      (check_field fields fd).filter
        (fun i => i.field_id == some fd.field_id) := by
    rw [per_field_issues_eq]
    exact key _ hmem huniq
  have hcf := check_field_unpopulated fields fd hun
  constructor
  · intro hreq
    rw [hmain, hcf, hreq]
    refine ⟨?_, rfl, rfl⟩
    simp [required_issue]
  · intro hreq
    rw [hmain, hcf, hreq]
    simp

/-- C3 witness: the empty field set against the one-required-field
schema yields exactly the `required_field` error for `X`. -/
theorem claim_C3_witness :
    x_field_def ∈ all_field_defs x_schema ∧
    (all_field_defs x_schema).countP
      (fun g => g.field_id == x_field_def.field_id) = 1 ∧
    unpopulated [] x_field_def.field_id = true ∧
    (per_field_issues [] x_schema).filter
      (fun i => i.field_id == some x_field_def.field_id) =
      [required_issue x_field_def] := by
  have hmem : x_field_def ∈ all_field_defs x_schema := by
    simp [all_field_defs, x_schema]
  have huniq : (all_field_defs x_schema).countP
      (fun g => g.field_id == x_field_def.field_id) = 1 := by
    simp [all_field_defs, x_schema]
  have hun : unpopulated [] x_field_def.field_id = true := rfl
  exact ⟨hmem, huniq, hun,
    ((claim_C3 [] x_schema x_field_def hmem huniq hun).1 rfl).1⟩

/-- C6: for a populated matched field, the `confidence_threshold` warning
is emitted exactly when the confidence score is strictly below `0.5`; in
particular `0.5` produces no warning and `0.49` produces one. -/
theorem claim_C6 (fields : List TemplateField) (fd : FieldDef)
    (f : TemplateField) (hm : field_map_get fields fd.field_id = some f)
    (hv : f.value.isSome = true) :
    (has_rule (check_field fields fd) "confidence_threshold" = true ↔
      f.confidence_score < 0.5) ∧
    (f.confidence_score = 0.5 →
      has_rule (check_field fields fd) "confidence_threshold" = false) ∧
    (f.confidence_score = 0.49 →
      has_rule (check_field fields fd) "confidence_threshold" = true) := by
  rcases Option.isSome_iff_exists.mp hv with ⟨v, hveq⟩
  have hcf : check_field fields fd = rule_issues fd (some v) ++
      (if f.confidence_score < 0.5 then [confidence_issue fd f] else []) := by
    simp only [check_field, hm, hveq]
  have hru : has_rule (rule_issues fd (some v)) "confidence_threshold"
      = false := by
    rw [has_rule_eq_false_iff]
    intro i hi hcontra
    have h3 := (mem_rule_issues hi).2.2
    rw [hcontra] at h3
    simp [validation_rules] at h3
  have hmain : has_rule (check_field fields fd) "confidence_threshold"
      = decide (f.confidence_score < 0.5) := by
    rw [hcf, has_rule_append, hru, Bool.false_or]
    by_cases hlt : f.confidence_score < 0.5
    · simp [if_pos hlt, has_rule, confidence_issue, hlt]
    · simp [if_neg hlt, has_rule, hlt]
  refine ⟨?_, ?_, ?_⟩
  · rw [hmain]
    simp
  · intro h5
    rw [hmain, h5, decide_eq_false_iff_not]
    norm_num
  · intro h49
    rw [hmain, h49, decide_eq_true_eq]
    norm_num

/-- C6 witness: a populated field for `X` with confidence `0.49` receives
the warning. -/
theorem claim_C6_witness :
    field_map_get [x49_field] "X" = some x49_field ∧
    x49_field.confidence_score = 0.49 ∧
    has_rule (check_field [x49_field] x_field_def) "confidence_threshold"
      = true := by
  have hm : field_map_get [x49_field] "X" = some x49_field := by
    simp [field_map_get, x49_field, List.find?, List.reverse, List.reverseAux]
  exact ⟨hm, rfl, (claim_C6 [x49_field] x_field_def x49_field hm rfl).2.2 rfl⟩

/-- C7: a numeric input that every supplied field leaves null is absent
from the cross-field value map; an absent input of a cross-field check
behaves exactly as a supplied `0` (stated per check for the input fields
of each CR1 and CR2 formula); and a check whose reported target field is
absent emits no finding at all. -/
theorem claim_C7 (m : String → Option Value) (id : String) (h : m id = none) :
    (∀ fields : List TemplateField,
      (∀ f ∈ fields, f.field_id = id → f.value = none) →
        value_map fields id = none) ∧
    (id ∈ (["CR1_010_010", "CR1_020_010", "CR1_030_010", "CR1_040_010",
        "CR1_050_010", "CR1_100_010", "CR1_150_010", "CR1_200_010"] :
          List String) →
      validate_cr1_rules (update_map m id (some (Value.num 0))) =
        validate_cr1_rules m) ∧
    (id = "CR1_500_010" →
      cr1_tier1_check (update_map m id (some (Value.num 0))) =
        cr1_tier1_check m) ∧
    (id = "CR1_600_010" →
      cr1_own_funds_check (update_map m id (some (Value.num 0))) =
        cr1_own_funds_check m) ∧
    (id ∈ (["CR2_010_010", "CR2_020_010", "CR2_050_010", "CR2_060_010"] :
        List String) →
      validate_cr2_rules (update_map m id (some (Value.num 0))) =
        validate_cr2_rules m) ∧
    (id = "CR1_500_010" →
      cr1_cet1_check m = [] ∧ cr1_min_cet1_check m = []) ∧
    (id = "CR1_600_010" → cr1_tier1_check m = []) ∧
    (id = "CR1_700_010" → cr1_own_funds_check m = []) ∧
    (id = "CR2_100_010" → cr2_rwa_check m = []) := by
  have hg : ∀ k, getD0 (update_map m id (some (Value.num 0))) k
      = getD0 m k := by
    intro k
    by_cases hk : k = id
    · subst hk
      unfold getD0 update_map
      rw [if_pos rfl, h]
    · unfold getD0 update_map
      rw [if_neg hk]
  have hupd : ∀ k, k ≠ id → update_map m id (some (Value.num 0)) k = m k := by
    intro k hk
    unfold update_map
    rw [if_neg hk]
  refine ⟨?_, ?_, ?_, ?_, ?_, ?_, ?_, ?_, ?_⟩
  · intro fields hnull
    unfold value_map
    have hfind : (fields.filter (fun f => f.value.isSome)).reverse.find?
        (fun f => f.field_id == id) = none := by
      rw [List.find?_eq_none]
      intro f hf
      rw [List.mem_reverse] at hf
      have hmem := List.mem_filter.mp hf
      intro hbeq
      have hv := hnull f hmem.1 (by simpa using hbeq)
      rw [hv] at hmem
      simp at hmem
    rw [hfind]
    rfl
  · intro hid
    refine validate_cr1_rules_congr _ _ (hupd _ fun hc => ?_)
      (hupd _ fun hc => ?_) (hupd _ fun hc => ?_) hg
    · subst hc; revert hid; decide
    · subst hc; revert hid; decide
    · subst hc; revert hid; decide
  · intro hid
    subst hid
    unfold cr1_tier1_check calculated_tier1
    simp only [hupd "CR1_600_010" (by decide), hg]
  · intro hid
    subst hid
    unfold cr1_own_funds_check calculated_own_funds
    simp only [hupd "CR1_700_010" (by decide), hg]
  · intro hid
    refine validate_cr2_rules_congr _ _ (hupd _ fun hc => ?_) hg
    subst hc; revert hid; decide
  · intro hid
    subst hid
    exact ⟨by simp [cr1_cet1_check, h], by simp [cr1_min_cet1_check, h]⟩
  · intro hid
    subst hid
    simp [cr1_tier1_check, h]
  · intro hid
    subst hid
    simp [cr1_own_funds_check, h]
  · intro hid
    subst hid
    simp [cr2_rwa_check, h]

/-- C7 witness: on the empty value map the reported CET1 is absent, so
the CET1 cross-check and the minimum-CET1 check are both skipped. -/
theorem claim_C7_witness :
    (fun _ : String => (none : Option Value)) "CR1_500_010" = none ∧
    (cr1_cet1_check (fun _ => none) = [] ∧
      cr1_min_cet1_check (fun _ => none) = []) :=
  ⟨rfl, (claim_C7 (fun _ => none) "CR1_500_010" rfl).2.2.2.2.2.1 rfl⟩

/-- C8: an unknown template type resolves to the empty schema (no
exception), and validating against it yields no findings: the per-field
walk sees no sections and the cross-field dispatch has no matching
branch. -/
theorem claim_C8 (fields : List TemplateField) (t : String)
    (h1 : t ≠ own_funds_cr1) (h2 : t ≠ capital_requirements_cr2) :
    get_template_schema t = empty_schema ∧
    validate_fields fields t (get_template_schema t) = [] := by
  have hs : get_template_schema t = empty_schema := by
    unfold get_template_schema
    rw [if_neg h1, if_neg h2]
  refine ⟨hs, ?_⟩
  rw [hs]
  unfold validate_fields validate_cross_field_rules
  rw [if_neg h1, if_neg h2]
  simp [per_field_issues, empty_schema]

/-- C8 witness: the unknown type string produces no findings on the empty
field set. -/
theorem claim_C8_witness :
    "unknown_template" ≠ own_funds_cr1 ∧
    "unknown_template" ≠ capital_requirements_cr2 ∧
    validate_fields [] "unknown_template"
      (get_template_schema "unknown_template") = [] := by
  have h1 : "unknown_template" ≠ own_funds_cr1 := by
    unfold own_funds_cr1
    decide
  have h2 : "unknown_template" ≠ capital_requirements_cr2 := by
    unfold capital_requirements_cr2
    decide
  exact ⟨h1, h2, (claim_C8 [] "unknown_template" h1 h2).2⟩

/-- C9: a rule name absent from the registry is silently skipped by the
rule loop: the produced issues are exactly those of the remaining rule
names, and no issue carries the unknown name. -/
theorem claim_C9 (fd : FieldDef) (v : Option Value) (name : String)
    (l1 l2 : List String) (hr : fd.validation_rules = l1 ++ name :: l2)
    (hunknown : validation_rules name = none) :
    rule_issues fd v = (l1 ++ l2).filterMap (rule_issue fd v) ∧
    ∀ i ∈ rule_issues fd v, i.rule ≠ name := by
  have hnone : rule_issue fd v name = none := by
    simp [rule_issue, hunknown]
  constructor
  · unfold rule_issues
    rw [hr]
    simp [List.filterMap_append, List.filterMap_cons, hnone]
  · intro i hi hcontra
    have h3 := (mem_rule_issues hi).2.2
    rw [hcontra, hunknown] at h3
    simp at h3

/-- C9 witness: a definition listing the unknown rule `bogus_rule` before
`must_be_positive`, applied to the value `-1`. -/
theorem claim_C9_witness :
    bogus_rules_def.validation_rules =
      [] ++ "bogus_rule" :: ["must_be_positive"] ∧
    validation_rules "bogus_rule" = none ∧
    rule_issues bogus_rules_def (some (Value.num (-1))) =
      ([] ++ ["must_be_positive"]).filterMap
        (rule_issue bogus_rules_def (some (Value.num (-1)))) := by
  have hr : bogus_rules_def.validation_rules =
      [] ++ "bogus_rule" :: ["must_be_positive"] := rfl
  have hu : validation_rules "bogus_rule" = none := by
    unfold validation_rules
    rw [if_neg (by decide), if_neg (by decide), if_neg (by decide)]
  exact ⟨hr, hu,
    (claim_C9 bogus_rules_def (some (Value.num (-1))) "bogus_rule" []
      ["must_be_positive"] hr hu).1⟩

/-- C10: every finding produced by the validator has severity `error` or
`warning` and a non-null field id, so the summary of any validator output
has an `info` count of zero. -/
theorem claim_C10 (fields : List TemplateField) (t : String)
    (schema : TemplateSchema) :
    (∀ i ∈ validate_fields fields t schema,
      (i.severity = "error" ∨ i.severity = "warning") ∧
        i.field_id.isSome = true) ∧
    (generate_validation_summary (validate_fields fields t schema)).info
      = 0 := by
  refine ⟨fun i hi => mem_validate_fields hi, ?_⟩
  have h0 : (validate_fields fields t schema).countP
      (fun i => i.severity == "info") = 0 := by
    rw [List.countP_eq_zero]
    intro i hi
    rcases (mem_validate_fields hi).1 with h | h <;> simp [h]
  simp [generate_validation_summary, h0]

end Corep
